import Mathlib

/-!
Verification of the Transformer forward-computation core in
`base modules/Transformer/{mha.py, models.py, FFN.py}`.

Modelling conventions (shallow embedding):
* Tensors are total functions from natural-number indices to values; the
  shape (index ranges) is carried separately and theorems quantify over
  in-range indices.  Floating-point values are modelled by real numbers.
* A Python function that can raise returns `Except PyError _`; a Python
  function that falls off the end without a `return` statement yields the
  value `Option.none` (Python's `None`).
* `torch.nn.Dropout` consumes an external pseudo-random stream; a single
  realized application of it is modelled as an abstract function held by
  the owning module (the identity at inference time).
* A score written to `-inf` by `masked_fill` is modelled as `Option.none`
  in an `Option ℝ`-valued score tensor; its exponential is `0`, matching
  the IEEE/limit behaviour `exp(-inf) = 0` that `torch.softmax` realizes.
-/

/-- Kinds of runtime errors the Python source can raise in the modelled paths. -/
inductive PyError where
  /-- an `assert` statement failed -/
  | assertionError : PyError
  /-- an attribute lookup (`self.foo` or `tensor.foo`) failed -/
  | attributeError : PyError
  /-- an elementwise torch op received non-broadcastable shapes -/
  | broadcastMismatch : PyError
  deriving DecidableEq, Repr

/-- Rank-3 real tensor, indexed `[dim0, dim1, dim2]`. -/
abbrev Tensor3R := Nat → Nat → Nat → ℝ

/-- Rank-4 real tensor, indexed `[dim0, dim1, dim2, dim3]`. -/
abbrev Tensor4R := Nat → Nat → Nat → Nat → ℝ

/-- Rank-4 extended score tensor: `some s` is a finite score, `none` is the
`-inf` written by `masked_fill`. -/
abbrev Tensor4E := Nat → Nat → Nat → Nat → Option ℝ

/-- Pointwise addition of rank-3 tensors (torch `+` on same-shaped tensors). -/
instance : Add Tensor3R := ⟨fun a b => fun i j k => a i j k + b i j k⟩

theorem Tensor3R.add_apply (a b : Tensor3R) (i j k : Nat) :
    (a + b) i j k = a i j k + b i j k := rfl

/-- Model of `torch.nn.Linear(in_features, out_features, bias)`: a weight
matrix, a bias vector and the flag saying whether the bias was requested.
`apply` below realizes `W x + b` over the last input dimension. -/
structure NnLinear where
  weight : Nat → Nat → ℝ
  bias : Nat → ℝ
  hasBias : Bool

/-- Output feature `j` of the affine map on a length-`inDim` vector `x`:
`(Σ_c W[j,c]·x[c]) + b[j]`, the bias present only when it was requested. -/
def NnLinear.apply (l : NnLinear) (inDim : Nat) (x : Nat → ℝ) : Nat → ℝ :=
  fun j => (∑ c ∈ Finset.range inDim, l.weight j c * x c)
    + (if l.hasBias then l.bias j else 0)

/-! ## mha.py : PrepareForMultiHeadAttention and MultiHeadAttention -/

/-- Model of `PrepareForMultiHeadAttention.__init__`: stores
`nn.Linear(d_model, heads*d_k, bias)` together with `heads` and `d_k`.
The constructor argument `bias` is recorded in `linear.hasBias`. -/
structure PrepareForMultiHeadAttention where
  linear : NnLinear
  heads : Nat
  d_k : Nat

/-- Build a `PrepareForMultiHeadAttention` from the constructor arguments
`(d_model, heads, d_k, bias)`; the weight and bias values of the fresh
`nn.Linear` are abstract parameters. -/
def PrepareForMultiHeadAttention.init (heads d_k : Nat) (bias : Bool)
    (w : Nat → Nat → ℝ) (b : Nat → ℝ) : PrepareForMultiHeadAttention :=
  { linear := { weight := w, bias := b, hasBias := bias }, heads, d_k }

/-- Model of `PrepareForMultiHeadAttention.forward` on a rank-3 input
`[seq_len, batch_size, d_model]`: apply the linear map on the last
dimension and view the `heads*d_k` output features as `[heads, d_k]`
(flat feature index `h*d_k + d`).  Output is `[seq_len, batch, heads, d_k]`. -/
def PrepareForMultiHeadAttention.forward (p : PrepareForMultiHeadAttention)
    (d_model : Nat) (x : Tensor3R) : Tensor4R :=
  fun i b h d => p.linear.apply d_model (fun c => x i b c) (h * p.d_k + d)

/-- Model of `MultiHeadAttention.__init__` state: `d_k = d_model // heads`
(floor division, no divisibility check in the source), the three
projections (`value` built with `bias=True` unconditionally), and the
dropout applied to the attention weights.  `self.softmax = nn.Softmax(dim=1)`
is realized by `softmaxDim1` below; `self.scale` is the derived constant
`MultiHeadAttention.scale`. -/
structure MultiHeadAttention where
  heads : Nat
  d_model : Nat
  d_k : Nat
  query : PrepareForMultiHeadAttention
  key : PrepareForMultiHeadAttention
  value : PrepareForMultiHeadAttention
  dropout : Tensor4R → Tensor4R

/-- Model of `MultiHeadAttention.__init__(heads, d_model, dropout_prob, bias)`.
It sets `d_k = d_model // heads` with no divisibility assertion, passes the
caller's `bias` to the query and key projections, and hardcodes `bias=True`
for the value projection.  The fresh parameter values and the realized
dropout are abstract arguments. -/
def MultiHeadAttention.init (heads d_model : Nat) (dropout_prob : ℚ)
    (bias : Bool) (wq wk wv : Nat → Nat → ℝ) (bq bk bv : Nat → ℝ)
    (drop : Tensor4R → Tensor4R) : MultiHeadAttention :=
  let _ := dropout_prob
  { heads, d_model,
    d_k := d_model / heads,
    query := PrepareForMultiHeadAttention.init heads (d_model / heads) bias wq bq,
    key := PrepareForMultiHeadAttention.init heads (d_model / heads) bias wk bk,
    value := PrepareForMultiHeadAttention.init heads (d_model / heads) true wv bv,
    dropout := drop }

/-- The constant `self.scale = 1 / math.sqrt(self.d_k)`. -/
noncomputable def MultiHeadAttention.scale (m : MultiHeadAttention) : ℝ :=
  1 / Real.sqrt (m.d_k : ℝ)

/-- Model of a mask tensor argument: a rank-3 shape plus 0/1 entries. -/
structure MaskTensor where
  shape0 : Nat
  shape1 : Nat
  shape2 : Nat
  data : Nat → Nat → Nat → ℚ

/-- Model of `MultiHeadAttention.prepare_mask(mask, query_shape, key_shape)`.
`query_shape` is the projected query's shape `[len_q, batch, heads, d_k]`
and `key_shape` the projected key's, so the asserts compare the mask's
dimensions against `len_q = query_shape[0]`, `len_k = key_shape[0]` and
`batch = query_shape[1]`.  A failed assert raises; on success the mask is
unsqueezed with a trailing singleton head dimension. -/
def MultiHeadAttention.prepare_mask (mask : MaskTensor) (len_q batch len_k : Nat) :
    Except PyError (Nat × Nat × Nat × Nat) :=
  if (mask.shape0 = 1 ∨ mask.shape0 = len_q)
      ∧ mask.shape1 = len_k
      ∧ (mask.shape2 = 1 ∨ mask.shape2 = batch) then
    .ok (mask.shape0, mask.shape1, mask.shape2, 1)
  else
    .error .assertionError

/-! ### Theorems for C6, C8, C10 -/

/-- C6 counterexample: with `heads = 2` and `d_model = 7` (not divisible),
`MultiHeadAttention.__init__` does not fail — there is no divisibility
check — and it silently sets `d_k = 7 // 2 = 3`. -/
theorem mha_init_no_divisibility_check :
    ¬ (2 ∣ 7) ∧
      (MultiHeadAttention.init 2 7 (1/10) true
        (fun _ _ => 0) (fun _ _ => 0) (fun _ _ => 0)
        (fun _ => 0) (fun _ => 0) (fun _ => 0) id).d_k = 3 :=
  ⟨by decide, rfl⟩

/-- C6 (amended): `MultiHeadAttention.__init__` never rejects a
configuration; it always sets `d_k = d_model // heads` (floor division),
and whenever `heads` does divide `d_model` this is exact:
`d_k * heads = d_model`. -/
theorem mha_init_d_k (heads d_model : Nat) (p : ℚ) (bias : Bool)
    (wq wk wv : Nat → Nat → ℝ) (bq bk bv : Nat → ℝ)
    (drop : Tensor4R → Tensor4R) (hdvd : heads ∣ d_model) :
    (MultiHeadAttention.init heads d_model p bias wq wk wv bq bk bv drop).d_k
        = d_model / heads
      ∧ (MultiHeadAttention.init heads d_model p bias wq wk wv bq bk bv drop).d_k
          * heads = d_model :=
  ⟨rfl, by
    simp only [MultiHeadAttention.init]
    exact Nat.div_mul_cancel hdvd⟩

/-- C6 witness: the amended statement at `heads = 2`, `d_model = 8`. -/
theorem mha_init_d_k_witness :
    (2 ∣ 8) ∧
      ((MultiHeadAttention.init 2 8 (1/10) true
          (fun _ _ => 0) (fun _ _ => 0) (fun _ _ => 0)
          (fun _ => 0) (fun _ => 0) (fun _ => 0) id).d_k = 8 / 2
        ∧ (MultiHeadAttention.init 2 8 (1/10) true
            (fun _ _ => 0) (fun _ _ => 0) (fun _ _ => 0)
            (fun _ => 0) (fun _ => 0) (fun _ => 0) id).d_k * 2 = 8) :=
  ⟨by decide,
    mha_init_d_k 2 8 (1/10) true
      (fun _ _ => 0) (fun _ _ => 0) (fun _ _ => 0)
      (fun _ => 0) (fun _ => 0) (fun _ => 0) id (by decide)⟩

/-- C10: the query and key projections record exactly the constructor's
`bias` argument, while the value projection is built with `bias=True`
regardless; in particular with `bias = false` the query and key linears
have no bias but the value linear still does. -/
theorem mha_init_value_bias_always_true (heads d_model : Nat) (p : ℚ)
    (bias : Bool) (wq wk wv : Nat → Nat → ℝ) (bq bk bv : Nat → ℝ)
    (drop : Tensor4R → Tensor4R) :
    (MultiHeadAttention.init heads d_model p bias wq wk wv bq bk bv drop).query.linear.hasBias
        = bias
      ∧ (MultiHeadAttention.init heads d_model p bias wq wk wv bq bk bv drop).key.linear.hasBias
          = bias
      ∧ (MultiHeadAttention.init heads d_model p bias wq wk wv bq bk bv drop).value.linear.hasBias
          = true :=
  ⟨rfl, rfl, rfl⟩

/-- C8: `prepare_mask` succeeds exactly when the mask's first dimension is
1 or `len_q`, its second dimension is `len_k`, and its third dimension is
1 or `batch`; on success it returns the mask shape extended by a trailing
singleton head dimension, and on any violation it raises `AssertionError`. -/
theorem prepare_mask_contract (mask : MaskTensor) (len_q batch len_k : Nat) :
    (MultiHeadAttention.prepare_mask mask len_q batch len_k
        = .ok (mask.shape0, mask.shape1, mask.shape2, 1)
      ↔ (mask.shape0 = 1 ∨ mask.shape0 = len_q)
          ∧ mask.shape1 = len_k
          ∧ (mask.shape2 = 1 ∨ mask.shape2 = batch))
    ∧ (¬ ((mask.shape0 = 1 ∨ mask.shape0 = len_q)
          ∧ mask.shape1 = len_k
          ∧ (mask.shape2 = 1 ∨ mask.shape2 = batch)) →
        MultiHeadAttention.prepare_mask mask len_q batch len_k
          = .error .assertionError) := by
  constructor
  · constructor
    · intro h
      by_contra hc
      rw [MultiHeadAttention.prepare_mask, if_neg hc] at h
      exact Except.noConfusion h
    · intro h
      simp only [MultiHeadAttention.prepare_mask, if_pos h]
  · intro h
    simp only [MultiHeadAttention.prepare_mask, if_neg h]

/-! ### Scores, masking and softmax (mha.py lines 40–65) -/

/-- Model of `MultiHeadAttention.get_scores`: the einsum
`"ibhd,jbhd->ijbh"` on the projected query and key, i.e.
`score[i,j,b,h] = Σ_d query[i,b,h,d] · key[j,b,h,d]`. -/
def MultiHeadAttention.get_scores (m : MultiHeadAttention)
    (query key : Tensor4R) : Tensor4R :=
  fun i j b h => ∑ d ∈ Finset.range m.d_k, query i b h d * key j b h d

/-- The exponential used by softmax on an extended score: `exp(-inf) = 0`. -/
noncomputable def expVal : Option ℝ → ℝ
  | none => 0
  | some s => Real.exp s

/-- Model of `nn.Softmax(dim=1)` on a `[len_q, len_k, batch, heads]` score
tensor whose entries may be `-inf`: each entry is exponentiated and divided
by the sum of the exponentials along the second axis (the key-length axis
`j`), holding `i`, `b`, `h` fixed. -/
noncomputable def softmaxDim1 (len_k : Nat) (t : Tensor4E) : Tensor4R :=
  fun i j b h => expVal (t i j b h) / ∑ j' ∈ Finset.range len_k, expVal (t i j' b h)

/-- Entry of the prepared mask seen by `masked_fill` at scores index
`(i, j, b, ·)`: after `unsqueeze(-1)` the mask has shape
`[shape0, len_k, shape2, 1]` and broadcasts against the
`[len_q, len_k, batch, heads]` scores, reading index 0 along any singleton
dimension. -/
def broadcastMaskAt (msk : MaskTensor) (i j b : Nat) : ℚ :=
  msk.data (if msk.shape0 = 1 then 0 else i) j (if msk.shape2 = 1 then 0 else b)

/-- Model of `MultiHeadAttention.forward` up to and including
`attn = self.softmax(scores)` (mha.py lines 50–62): project query and key,
take scaled dot-product scores, validate and apply the optional mask
(`masked_fill(mask == 0, -inf)`), and softmax over the key axis. -/
noncomputable def MultiHeadAttention.attnWeights (m : MultiHeadAttention)
    (len_q len_k batch : Nat) (query key : Tensor3R)
    (mask : Option MaskTensor) : Except PyError Tensor4R :=
  let q := m.query.forward m.d_model query
  let k := m.key.forward m.d_model key
  let scores : Tensor4R := fun i j b h => m.get_scores q k i j b h * m.scale
  match mask with
  | none => .ok (softmaxDim1 len_k (fun i j b h => some (scores i j b h)))
  | some msk =>
    match MultiHeadAttention.prepare_mask msk len_q batch len_k with
    | .error e => .error e
    | .ok _ =>
      let masked : Tensor4E := fun i j b h =>
        if broadcastMaskAt msk i j b = 0 then none else some (scores i j b h)
      .ok (softmaxDim1 len_k masked)

/-- Model of `MultiHeadAttention.forward` (mha.py lines 49–65).  After the
attention weights, the source applies dropout and computes
`x = einsum("ijbh,jbhd->ibhd", attn, value)`, and then the function body
ends: there is no reshape back to `d_model`, no application of
`self.output`, and no `return` statement, so Python returns `None`
(modelled as `Option.none` in the `.ok` payload). -/
noncomputable def MultiHeadAttention.forward (m : MultiHeadAttention)
    (len_q len_k batch : Nat) (query key value : Tensor3R)
    (mask : Option MaskTensor) : Except PyError (Option Tensor3R) :=
  let v := m.value.forward m.d_model value
  match m.attnWeights len_q len_k batch query key mask with
  | .error e => .error e
  | .ok attn0 =>
    let attn := m.dropout attn0
    let _x : Tensor4R := fun i b h d =>
      ∑ j ∈ Finset.range len_k, attn i j b h * v j b h d
    .ok none

/-! ### Helper lemmas about `expVal` and `softmaxDim1` -/

theorem expVal_nonneg (s : Option ℝ) : 0 ≤ expVal s := by
  cases s with
  | none => simp [expVal]
  | some x => exact le_of_lt (Real.exp_pos x)

theorem expVal_pos_of_isSome (s : Option ℝ) (h : s.isSome) : 0 < expVal s := by
  cases s with
  | none => simp at h
  | some x => exact Real.exp_pos x

/-- Rows of `softmaxDim1` that contain at least one finite score sum to 1
along the key axis. -/
theorem softmaxDim1_row_sum (len_k : Nat) (t : Tensor4E) (i b h : Nat)
    (hrow : ∃ j, j < len_k ∧ (t i j b h).isSome) :
    ∑ j ∈ Finset.range len_k, softmaxDim1 len_k t i j b h = 1 := by
  obtain ⟨j₀, hj₀, hsome⟩ := hrow
  have hS : 0 < ∑ j' ∈ Finset.range len_k, expVal (t i j' b h) := by
    apply Finset.sum_pos'
    · intro j _
      exact expVal_nonneg _
    · exact ⟨j₀, Finset.mem_range.mpr hj₀, expVal_pos_of_isSome _ hsome⟩
  unfold softmaxDim1
  rw [← Finset.sum_div]
  exact div_self (ne_of_gt hS)

/-- Entries of `softmaxDim1` at a `-inf` score are exactly 0. -/
theorem softmaxDim1_zero_of_none (len_k : Nat) (t : Tensor4E) (i j b h : Nat)
    (h0 : t i j b h = none) : softmaxDim1 len_k t i j b h = 0 := by
  unfold softmaxDim1
  rw [h0]
  simp [expVal]

/-! ### Theorems for C2 and C3 -/

/-- C2 fails on the code: for every query, key and value and any mask-free
call, `MultiHeadAttention.forward` computes the per-head combination
`einsum("ijbh,jbhd->ibhd")` but then falls off the end of the function —
the heads are never reshaped back into `model_dim`, `self.output` is never
applied, and the call returns Python `None` instead of a
`[len_q, batch, model_dim]` tensor. -/
theorem mha_forward_returns_none (m : MultiHeadAttention)
    (len_q len_k batch : Nat) (query key value : Tensor3R) :
    m.forward len_q len_k batch query key value none = .ok none := rfl

/-- C3: in `MultiHeadAttention`, softmax is taken over the key-length axis:
for any shape-valid mask, every query/batch/head row that keeps at least
one unmasked key position has attention weights summing to 1, and every
position whose (broadcast) mask entry is 0 was filled with `-inf` before
the softmax and so receives attention weight exactly 0; without a mask
every row of positive key length likewise sums to 1. -/
theorem mha_softmax_key_axis_and_mask_zero (m : MultiHeadAttention)
    (len_q len_k batch : Nat) (query key : Tensor3R) (msk : MaskTensor)
    (i b h : Nat)
    (hshape : (msk.shape0 = 1 ∨ msk.shape0 = len_q) ∧ msk.shape1 = len_k
      ∧ (msk.shape2 = 1 ∨ msk.shape2 = batch))
    (hrow : ∃ j, j < len_k ∧ broadcastMaskAt msk i j b ≠ 0) :
    (∃ A, m.attnWeights len_q len_k batch query key (some msk) = .ok A
      ∧ (∑ j ∈ Finset.range len_k, A i j b h) = 1
      ∧ ∀ j, broadcastMaskAt msk i j b = 0 → A i j b h = 0)
    ∧ (0 < len_k →
        ∃ A, m.attnWeights len_q len_k batch query key none = .ok A
          ∧ (∑ j ∈ Finset.range len_k, A i j b h) = 1) := by
  constructor
  · refine ⟨softmaxDim1 len_k (fun i' j' b' h' =>
        if broadcastMaskAt msk i' j' b' = 0 then none
        else some (m.get_scores (m.query.forward m.d_model query)
          (m.key.forward m.d_model key) i' j' b' h' * m.scale)), ?_, ?_, ?_⟩
    · simp only [MultiHeadAttention.attnWeights,
        MultiHeadAttention.prepare_mask, if_pos hshape]
    · apply softmaxDim1_row_sum
      obtain ⟨j₀, hj₀, hne⟩ := hrow
      exact ⟨j₀, hj₀, by simp [if_neg hne]⟩
    · intro j hj
      apply softmaxDim1_zero_of_none
      simp [if_pos hj]
  · intro hlen
    refine ⟨softmaxDim1 len_k (fun i' j' b' h' =>
        some (m.get_scores (m.query.forward m.d_model query)
          (m.key.forward m.d_model key) i' j' b' h' * m.scale)), rfl, ?_⟩
    exact softmaxDim1_row_sum len_k _ i b h ⟨0, hlen, rfl⟩

/-- C3 witness: a concrete one-head instance with an all-ones 1×1×1 mask,
where the hypotheses hold by computation and the theorem applies. -/
theorem mha_softmax_key_axis_and_mask_zero_witness :
    (((MaskTensor.mk 1 1 1 (fun _ _ _ => 1)).shape0 = 1
        ∨ (MaskTensor.mk 1 1 1 (fun _ _ _ => 1)).shape0 = 1)
      ∧ (MaskTensor.mk 1 1 1 (fun _ _ _ => 1)).shape1 = 1
      ∧ ((MaskTensor.mk 1 1 1 (fun _ _ _ => 1)).shape2 = 1
        ∨ (MaskTensor.mk 1 1 1 (fun _ _ _ => 1)).shape2 = 1))
    ∧ (∃ j, j < 1 ∧ broadcastMaskAt (MaskTensor.mk 1 1 1 (fun _ _ _ => 1)) 0 j 0 ≠ 0)
    ∧ ((∃ A, (MultiHeadAttention.init 1 2 (1/10) true
          (fun _ _ => 0) (fun _ _ => 0) (fun _ _ => 0)
          (fun _ => 0) (fun _ => 0) (fun _ => 0) id).attnWeights 1 1 1
            (fun _ _ _ => 0) (fun _ _ _ => 0)
            (some (MaskTensor.mk 1 1 1 (fun _ _ _ => 1))) = .ok A
        ∧ (∑ j ∈ Finset.range 1, A 0 j 0 0) = 1
        ∧ ∀ j, broadcastMaskAt (MaskTensor.mk 1 1 1 (fun _ _ _ => 1)) 0 j 0 = 0 →
            A 0 j 0 0 = 0)
      ∧ (0 < 1 →
          ∃ A, (MultiHeadAttention.init 1 2 (1/10) true
            (fun _ _ => 0) (fun _ _ => 0) (fun _ _ => 0)
            (fun _ => 0) (fun _ => 0) (fun _ => 0) id).attnWeights 1 1 1
              (fun _ _ _ => 0) (fun _ _ _ => 0) none = .ok A
            ∧ (∑ j ∈ Finset.range 1, A 0 j 0 0) = 1)) :=
  ⟨by decide, ⟨0, by decide, by decide⟩,
    mha_softmax_key_axis_and_mask_zero
      (MultiHeadAttention.init 1 2 (1/10) true
        (fun _ _ => 0) (fun _ _ => 0) (fun _ _ => 0)
        (fun _ => 0) (fun _ => 0) (fun _ => 0) id)
      1 1 1 (fun _ _ _ => 0) (fun _ _ _ => 0)
      (MaskTensor.mk 1 1 1 (fun _ _ _ => 1)) 0 0 0
      (by decide) ⟨0, by decide, by decide⟩⟩

/-! ## FFN.py : FeedForward -/

/-- The default activation `nn.ReLU()`. -/
def relu : ℝ → ℝ := fun x => max x 0

/-- Model of `FeedForward.__init__` state: `layer1 : d_model → d_ff`,
`layer2 : d_ff → d_model`, hidden-layer dropout, the elementwise
activation, the gating flag, and `linear_v`, which exists only when
`is_gated` was set (the source assigns `self.linear_v` inside
`if is_gated:`). -/
structure FeedForward where
  d_model : Nat
  d_ff : Nat
  layer1 : NnLinear
  layer2 : NnLinear
  dropout : (Nat → ℝ) → (Nat → ℝ)
  activation : ℝ → ℝ
  is_gated : Bool
  linear_v : Option NnLinear

/-- Model of `FeedForward.__init__(d_model, d_ff, dropout, activation,
is_gated, bias1, bias2, bias_gate)`: the fresh `nn.Linear` parameter values
and the realized dropout are abstract arguments; `linear_v` is created only
when `is_gated` is true. -/
def FeedForward.init (d_model d_ff : Nat) (drop : (Nat → ℝ) → (Nat → ℝ))
    (activation : ℝ → ℝ) (g bias1 bias2 bias_gate : Bool)
    (w1 w2 wv : Nat → Nat → ℝ) (b1 b2 bv : Nat → ℝ) : FeedForward :=
  { d_model, d_ff,
    layer1 := { weight := w1, bias := b1, hasBias := bias1 },
    layer2 := { weight := w2, bias := b2, hasBias := bias2 },
    dropout := drop,
    activation,
    is_gated := g,
    linear_v := if g then some { weight := wv, bias := bv, hasBias := bias_gate }
      else none }

/-- Model of `FeedForward.forward` on one position's `d_model`-vector:
`g = activation(layer1(x))`; if gated, multiply elementwise by
`linear_v(x)` (unactivated); dropout; then `layer2`.  Reading
`self.linear_v` when it was never assigned would raise. -/
def FeedForward.forward (f : FeedForward) (x : Nat → ℝ) :
    Except PyError (Nat → ℝ) :=
  let g := fun j => f.activation (f.layer1.apply f.d_model x j)
  match f.is_gated, f.linear_v with
  | true, some lv =>
    .ok (f.layer2.apply f.d_ff (f.dropout (fun j => g j * lv.apply f.d_model x j)))
  | true, none => .error .attributeError
  | false, _ => .ok (f.layer2.apply f.d_ff (f.dropout g))

/-- C9: the feed-forward sublayer realizes exactly the pipeline
hidden-projection → activation → (elementwise gate by a second, unactivated
projection of the same input, when gating is enabled) → dropout → output
projection; and when gating is disabled no gate projection exists and no
gating multiplication occurs. -/
theorem ffn_forward_pipeline (d_model d_ff : Nat)
    (drop : (Nat → ℝ) → (Nat → ℝ)) (act : ℝ → ℝ)
    (bias1 bias2 bias_gate : Bool) (w1 w2 wv : Nat → Nat → ℝ)
    (b1 b2 bv : Nat → ℝ) (x : Nat → ℝ) :
    ((FeedForward.init d_model d_ff drop act true bias1 bias2 bias_gate
        w1 w2 wv b1 b2 bv).forward x
      = .ok (NnLinear.apply { weight := w2, bias := b2, hasBias := bias2 } d_ff
          (drop (fun j =>
            act (NnLinear.apply { weight := w1, bias := b1, hasBias := bias1 }
              d_model x j)
            * NnLinear.apply { weight := wv, bias := bv, hasBias := bias_gate }
                d_model x j))))
    ∧ ((FeedForward.init d_model d_ff drop act false bias1 bias2 bias_gate
        w1 w2 wv b1 b2 bv).forward x
      = .ok (NnLinear.apply { weight := w2, bias := b2, hasBias := bias2 } d_ff
          (drop (fun j =>
            act (NnLinear.apply { weight := w1, bias := b1, hasBias := bias1 }
              d_model x j)))))
    ∧ (FeedForward.init d_model d_ff drop act false bias1 bias2 bias_gate
        w1 w2 wv b1 b2 bv).linear_v = none :=
  ⟨rfl, rfl, rfl⟩

/-! ## models.py : TransformerLayer -/

/-- Model of `TransformerLayer.__init__` state.  The injected sublayer
modules (`self_attn`, optional `src_attn`, `feed_forward`) and the fresh
`nn.LayerNorm`/`nn.Dropout` modules are abstracted as tensor functions; an
attention module takes `(query, key, value, mask)`.  `norm_src_attn` is
assigned only when `src_attn` is not `None` (the source creates it inside
`if self.src_attn is not None:`). -/
structure TransformerLayer where
  size : Nat
  self_attn : Tensor3R → Tensor3R → Tensor3R → Option MaskTensor → Tensor3R
  src_attn : Option (Tensor3R → Tensor3R → Tensor3R → Option MaskTensor → Tensor3R)
  feed_forward : Tensor3R → Tensor3R
  dropout : Tensor3R → Tensor3R
  norm_self_attn : Tensor3R → Tensor3R
  norm_src_attn : Option (Tensor3R → Tensor3R)
  norm_ff : Tensor3R → Tensor3R

/-- Model of `TransformerLayer.__init__(d_model, self_attn, src_attn,
feed_forward, dropout_prob)`: `norm_src_attn` exists exactly when a source
attention module was supplied. -/
def TransformerLayer.init (d_model : Nat)
    (sa : Tensor3R → Tensor3R → Tensor3R → Option MaskTensor → Tensor3R)
    (srca : Option (Tensor3R → Tensor3R → Tensor3R → Option MaskTensor → Tensor3R))
    (ff : Tensor3R → Tensor3R) (drop : Tensor3R → Tensor3R)
    (nsa nsrc nff : Tensor3R → Tensor3R) : TransformerLayer :=
  { size := d_model,
    self_attn := sa,
    src_attn := srca,
    feed_forward := ff,
    dropout := drop,
    norm_self_attn := nsa,
    norm_src_attn := match srca with
      | some _ => some nsrc
      | none => none,
    norm_ff := nff }

/-- Model of `TransformerLayer.forward` (models.py lines 63–81):
`z = norm_self_attn(x)`; self-attention on `z` with the self mask;
`x = x + dropout(...)`; if a memory tensor `src` was supplied, read
`self.norm_src_attn` (an `AttributeError` when it was never assigned),
normalize, run `src_attn` when present and residual-add; finally
`z = norm_ff(x)`, feed-forward, residual-add. -/
def TransformerLayer.forward (l : TransformerLayer) (x : Tensor3R)
    (mask : MaskTensor) (src : Option Tensor3R)
    (src_mask : Option MaskTensor) : Except PyError Tensor3R :=
  let z := l.norm_self_attn x
  let x1 := x + l.dropout (l.self_attn z z z (some mask))
  match src with
  | none =>
    let z2 := l.norm_ff x1
    .ok (x1 + l.dropout (l.feed_forward z2))
  | some s =>
    match l.norm_src_attn with
    | none => .error .attributeError
    | some nrm =>
      let z1 := nrm x1
      let x2 := match l.src_attn with
        | some f => x1 + l.dropout (f z1 s s src_mask)
        | none => x1
      let z2 := l.norm_ff x2
      .ok (x2 + l.dropout (l.feed_forward z2))

/-- Stage A of the spec's layer pipeline (§4.5): normalize `x`, run
self-attention with the normalized value as query/key/value, and add the
dropout-applied result back onto the pre-normalization `x`. -/
def specStageA (l : TransformerLayer) (x : Tensor3R) (mask : MaskTensor) :
    Tensor3R :=
  x + l.dropout (l.self_attn (l.norm_self_attn x) (l.norm_self_attn x)
    (l.norm_self_attn x) (some mask))

/-- Stage B of the spec's layer pipeline (§4.5): normalize the running
value, run cross-attention with the memory as key/value, and add the
dropout-applied result back onto the pre-normalization running value. -/
def specStageB (l : TransformerLayer) (nrm : Tensor3R → Tensor3R)
    (f : Tensor3R → Tensor3R → Tensor3R → Option MaskTensor → Tensor3R)
    (x s : Tensor3R) (src_mask : Option MaskTensor) : Tensor3R :=
  x + l.dropout (f (nrm x) s s src_mask)

/-- Stage C of the spec's layer pipeline (§4.5): normalize the running
value, run the feed-forward sublayer, and add the dropout-applied result
back onto the pre-normalization running value. -/
def specStageC (l : TransformerLayer) (x : Tensor3R) : Tensor3R :=
  x + l.dropout (l.feed_forward (l.norm_ff x))

/-- C4: `TransformerLayer.forward` is exactly the pre-norm residual
pipeline of the spec — each sublayer is fed the normalized running value
while the residual add uses the pre-normalization running value — and when
no memory tensor is supplied the cross-attention stage is skipped
entirely, the Stage-A result passing directly to the feed-forward stage. -/
theorem transformer_layer_pre_norm_residual (l : TransformerLayer)
    (x : Tensor3R) (mask : MaskTensor) (src_mask : Option MaskTensor)
    (s : Tensor3R) (nrm : Tensor3R → Tensor3R)
    (f : Tensor3R → Tensor3R → Tensor3R → Option MaskTensor → Tensor3R)
    (hnrm : l.norm_src_attn = some nrm) (hf : l.src_attn = some f) :
    l.forward x mask none src_mask = .ok (specStageC l (specStageA l x mask))
      ∧ l.forward x mask (some s) src_mask
        = .ok (specStageC l (specStageB l nrm f (specStageA l x mask) s src_mask)) := by
  constructor
  · rfl
  · simp only [TransformerLayer.forward, hnrm, hf]
    rfl

/-- C4 witness: a concrete decoder-style layer built by
`TransformerLayer.init` with a source-attention module present. -/
theorem transformer_layer_pre_norm_residual_witness :
    (TransformerLayer.init 2 (fun q _ _ _ => q)
        (some (fun q _ _ _ => q)) id id id id id).norm_src_attn = some id
    ∧ (TransformerLayer.init 2 (fun q _ _ _ => q)
        (some (fun q _ _ _ => q)) id id id id id).src_attn
        = some (fun q _ _ _ => q)
    ∧ ((TransformerLayer.init 2 (fun q _ _ _ => q)
          (some (fun q _ _ _ => q)) id id id id id).forward
          (fun _ _ _ => 0) (MaskTensor.mk 1 1 1 (fun _ _ _ => 1)) none none
        = .ok (specStageC
            (TransformerLayer.init 2 (fun q _ _ _ => q)
              (some (fun q _ _ _ => q)) id id id id id)
            (specStageA
              (TransformerLayer.init 2 (fun q _ _ _ => q)
                (some (fun q _ _ _ => q)) id id id id id)
              (fun _ _ _ => 0) (MaskTensor.mk 1 1 1 (fun _ _ _ => 1))))
      ∧ (TransformerLayer.init 2 (fun q _ _ _ => q)
            (some (fun q _ _ _ => q)) id id id id id).forward
            (fun _ _ _ => 0) (MaskTensor.mk 1 1 1 (fun _ _ _ => 1))
            (some (fun _ _ _ => 1)) none
        = .ok (specStageC
            (TransformerLayer.init 2 (fun q _ _ _ => q)
              (some (fun q _ _ _ => q)) id id id id id)
            (specStageB
              (TransformerLayer.init 2 (fun q _ _ _ => q)
                (some (fun q _ _ _ => q)) id id id id id)
              id (fun q _ _ _ => q)
              (specStageA
                (TransformerLayer.init 2 (fun q _ _ _ => q)
                  (some (fun q _ _ _ => q)) id id id id id)
                (fun _ _ _ => 0) (MaskTensor.mk 1 1 1 (fun _ _ _ => 1)))
              (fun _ _ _ => 1) none))) :=
  ⟨rfl, rfl,
    transformer_layer_pre_norm_residual
      (TransformerLayer.init 2 (fun q _ _ _ => q)
        (some (fun q _ _ _ => q)) id id id id id)
      (fun _ _ _ => 0) (MaskTensor.mk 1 1 1 (fun _ _ _ => 1)) none
      (fun _ _ _ => 1) id (fun q _ _ _ => q) rfl rfl⟩

/-! ## models.py : embedding front ends -/

/-- Model of `EmbeddingsWithPositionalEncoding.__init__` state: the
`nn.Embedding(n_vocab, d_model)` table and the fixed positional-encoding
buffer of shape `[max_len, 1, d_model]` (produced by
`get_positional_encoding`, whose module is not in the sources; its values
are held abstractly and are never read because `forward` raises first). -/
structure EmbeddingsWithPositionalEncoding where
  d_model : Nat
  n_vocab : Nat
  max_len : Nat
  emb : Nat → Nat → ℝ
  positional_encodings : Nat → Nat → ℝ

/-- Model of `EmbeddingsWithPositionalEncoding.forward` (models.py lines
20–22).  The source evaluates
`self.positional_encodings[:x.shape[0]].required_grad_(False)`:
`torch.Tensor` has no attribute `required_grad_` (a typo for
`requires_grad_`), so every call raises `AttributeError` before the
embedding sum is computed. -/
def EmbeddingsWithPositionalEncoding.forward
    (E : EmbeddingsWithPositionalEncoding) (L B : Nat)
    (x : Nat → Nat → Nat) : Except PyError Tensor3R :=
  let _ := (E, L, B, x)
  .error .attributeError

/-- Model of `EmbeddingsWithLearnedPositionalEncoding.__init__` state: the
`nn.Embedding(n_vocab, d_model)` table and the learned positional-encoding
parameter of shape `[max_len, 1, d_model]`, indexed `(position, channel)`
with the middle singleton dimension dropped. -/
structure EmbeddingsWithLearnedPositionalEncoding where
  d_model : Nat
  n_vocab : Nat
  max_len : Nat
  emb : Nat → Nat → ℝ
  positional_encodings : Nat → Nat → ℝ

/-- Model of `EmbeddingsWithLearnedPositionalEncoding.forward` (models.py
lines 33–35) on a token tensor of shape `[L, B]`.  The slice
`self.positional_encodings[:L]` has `min L max_len` rows; the addition
`lookup(x) * sqrt(d_model) + pe` broadcasts `[L, B, d_model]` against
`[min L max_len, 1, d_model]`, which torch accepts exactly when the first
dimensions are equal or one of them is 1, and rejects with a runtime shape
error otherwise.  When the slice has a single row it is silently broadcast
along the whole sequence. -/
noncomputable def EmbeddingsWithLearnedPositionalEncoding.forward
    (E : EmbeddingsWithLearnedPositionalEncoding) (L B : Nat)
    (x : Nat → Nat → Nat) : Except PyError Tensor3R :=
  let _ := B
  let sliceLen := min L E.max_len
  if sliceLen = L ∨ sliceLen = 1 ∨ L = 1 then
    .ok (fun i b d => E.emb (x i b) d * Real.sqrt (E.d_model : ℝ)
      + E.positional_encodings (if sliceLen = 1 then 0 else i) d)
  else
    .error .broadcastMismatch

/-- C5 fails on the code for the fixed variant: its `forward` raises
`AttributeError` on every input (the `required_grad_` typo), so it never
returns the embedding tensor; the learned variant does return
`lookup(x) · sqrt(d_model) + positional_encodings[:L]` pointwise whenever
the sequence length is within the table's capacity. -/
theorem embeddings_forward_formula (Ef : EmbeddingsWithPositionalEncoding)
    (El : EmbeddingsWithLearnedPositionalEncoding) (L B : Nat)
    (x : Nat → Nat → Nat) (hcap : L ≤ El.max_len) :
    Ef.forward L B x = .error .attributeError
      ∧ ∃ t, El.forward L B x = .ok t
          ∧ ∀ i b d, i < L →
              t i b d = El.emb (x i b) d * Real.sqrt (El.d_model : ℝ)
                + El.positional_encodings i d := by
  refine ⟨rfl, fun i b d => El.emb (x i b) d * Real.sqrt (El.d_model : ℝ)
    + El.positional_encodings (if min L El.max_len = 1 then 0 else i) d,
    ?_, ?_⟩
  · simp only [EmbeddingsWithLearnedPositionalEncoding.forward]
    rw [if_pos (Or.inl (min_eq_left hcap))]
  · intro i b d hi
    by_cases h1 : min L El.max_len = 1
    · have hi0 : i = 0 := by
        have := min_eq_left hcap
        omega
      subst hi0
      simp [h1]
    · simp [h1]

/-- C5 witness: a concrete instance with `L = 2 ≤ max_len = 4`. -/
theorem embeddings_forward_formula_witness :
    2 ≤ (EmbeddingsWithLearnedPositionalEncoding.mk 4 10 4
        (fun _ _ => 0) (fun _ _ => 0)).max_len
    ∧ ((EmbeddingsWithPositionalEncoding.mk 4 10 4
          (fun _ _ => 0) (fun _ _ => 0)).forward 2 1 (fun _ _ => 0)
          = .error .attributeError
      ∧ ∃ t, (EmbeddingsWithLearnedPositionalEncoding.mk 4 10 4
            (fun _ _ => 0) (fun _ _ => 0)).forward 2 1 (fun _ _ => 0) = .ok t
          ∧ ∀ i b d, i < 2 →
              t i b d = (EmbeddingsWithLearnedPositionalEncoding.mk 4 10 4
                  (fun _ _ => 0) (fun _ _ => 0)).emb ((fun _ _ => 0) i b) d
                    * Real.sqrt ((4 : Nat) : ℝ)
                + (EmbeddingsWithLearnedPositionalEncoding.mk 4 10 4
                    (fun _ _ => 0) (fun _ _ => 0)).positional_encodings i d) :=
  ⟨by decide,
    embeddings_forward_formula
      (EmbeddingsWithPositionalEncoding.mk 4 10 4 (fun _ _ => 0) (fun _ _ => 0))
      (EmbeddingsWithLearnedPositionalEncoding.mk 4 10 4 (fun _ _ => 0) (fun _ _ => 0))
      2 1 (fun _ _ => 0) (by decide)⟩

/-- C7 counterexample: with a learned positional table of capacity
`max_len = 1` and a sequence of length `L = 2 > 1`, the forward call does
NOT fail — the single-row slice broadcasts silently along the sequence
dimension and a tensor is returned. -/
theorem embed_overlong_broadcast_counterexample :
    1 < 2
    ∧ ∃ t, (EmbeddingsWithLearnedPositionalEncoding.mk 4 10 1
        (fun _ _ => 0) (fun _ _ => 0)).forward 2 1 (fun _ _ => 0) = .ok t := by
  refine ⟨by decide, fun i b d =>
    (EmbeddingsWithLearnedPositionalEncoding.mk 4 10 1
      (fun _ _ => 0) (fun _ _ => 0)).emb 0 d * Real.sqrt ((4 : Nat) : ℝ)
    + (EmbeddingsWithLearnedPositionalEncoding.mk 4 10 1
      (fun _ _ => 0) (fun _ _ => 0)).positional_encodings
        (if min 2 1 = 1 then 0 else i) d, ?_⟩
  simp only [EmbeddingsWithLearnedPositionalEncoding.forward]
  rw [if_pos (by decide : min 2 1 = 2 ∨ min 2 1 = 1 ∨ 2 = 1)]

/-- C7 (amended): the fixed variant raises on every call (so in particular
on over-long input), and the learned variant raises a broadcast shape
error at the addition whenever `sequence_length > max_length ≥ 2`; but when
`max_length = 1` the single positional row is silently broadcast instead of
failing. -/
theorem embed_overlong_rejected (Ef : EmbeddingsWithPositionalEncoding)
    (El : EmbeddingsWithLearnedPositionalEncoding) (L B : Nat)
    (x : Nat → Nat → Nat) (h2 : 2 ≤ El.max_len) (hover : El.max_len < L) :
    Ef.forward L B x = .error .attributeError
      ∧ El.forward L B x = .error .broadcastMismatch := by
  refine ⟨rfl, ?_⟩
  simp only [EmbeddingsWithLearnedPositionalEncoding.forward]
  rw [if_neg]
  have hmin : min L El.max_len = El.max_len := min_eq_right (le_of_lt hover)
  rw [hmin]
  omega

/-- C7 witness: the amended statement at `max_len = 2`, `L = 3`. -/
theorem embed_overlong_rejected_witness :
    2 ≤ (EmbeddingsWithLearnedPositionalEncoding.mk 4 10 2
        (fun _ _ => 0) (fun _ _ => 0)).max_len
    ∧ (EmbeddingsWithLearnedPositionalEncoding.mk 4 10 2
        (fun _ _ => 0) (fun _ _ => 0)).max_len < 3
    ∧ ((EmbeddingsWithPositionalEncoding.mk 4 10 2
          (fun _ _ => 0) (fun _ _ => 0)).forward 3 1 (fun _ _ => 0)
          = .error .attributeError
      ∧ (EmbeddingsWithLearnedPositionalEncoding.mk 4 10 2
          (fun _ _ => 0) (fun _ _ => 0)).forward 3 1 (fun _ _ => 0)
          = .error .broadcastMismatch) :=
  ⟨by decide, by decide,
    embed_overlong_rejected
      (EmbeddingsWithPositionalEncoding.mk 4 10 2 (fun _ _ => 0) (fun _ _ => 0))
      (EmbeddingsWithLearnedPositionalEncoding.mk 4 10 2 (fun _ _ => 0) (fun _ _ => 0))
      3 1 (fun _ _ => 0) (by decide) (by decide)⟩

/-! ## models.py : EncoderDecoder -/

/-- Model of `EncoderDecoder.__init__` state: the five injected
collaborator modules, abstracted as functions over a value type `V` of
Python tensors (token tensors, masks and activations alike, since the
source is dynamically typed).  An attention-style component takes its
arguments in the source's positional order. -/
structure EncoderDecoder (V : Type) where
  encoder : V → V → V
  decoder : V → V → V → V → V
  src_embed : V → V
  tgt_embed : V → V
  generator : V → V

/-- Model of `EncoderDecoder.forward` (models.py lines 131–140).  The
local functions `encode` and `decode` defined inside `forward` are dead
code: they are local names, not attributes of `self`.  The body then
evaluates `enc = self.encoder(src, src_mask)` — note the raw token tensor
`src` is passed without `self.src_embed` (with the concrete encoder this
call would itself fail on the un-embedded integer tensor; the collaborator
modules are total here) — and finally
`return self.decode(enc, src_mask, tgt, tgt_mask)`, whose attribute lookup
`self.decode` raises `AttributeError`.  `self.generator` is never applied. -/
def EncoderDecoder.forward {V : Type} (m : EncoderDecoder V)
    (src tgt src_mask tgt_mask : V) : Except PyError V :=
  let _enc := m.encoder src src_mask
  let _ := (tgt, tgt_mask)
  .error .attributeError

/-- Modelled from the spec (§4.8 top-level contract): the intended
composition
`generator(decoder(tgt_embed(tgt), encoder(src_embed(src), src_mask), src_mask, tgt_mask))`. -/
def EncoderDecoder.specForward {V : Type} (m : EncoderDecoder V)
    (src tgt src_mask tgt_mask : V) : V :=
  m.generator (m.decoder (m.tgt_embed tgt)
    (m.encoder (m.src_embed src) src_mask) src_mask tgt_mask)

/-- C1 fails on the code: for every choice of collaborator modules and
inputs, `EncoderDecoder.forward` raises `AttributeError` (its final
statement calls the nonexistent attribute `self.decode`; along the way it
also skipped `src_embed` and never reached `generator`), so it never
returns the spec's composition of generator, decoder and encoder. -/
theorem encoder_decoder_forward_raises {V : Type} (m : EncoderDecoder V)
    (src tgt src_mask tgt_mask : V) :
    m.forward src tgt src_mask tgt_mask = .error .attributeError
      ∧ m.forward src tgt src_mask tgt_mask
          ≠ .ok (m.specForward src tgt src_mask tgt_mask) :=
  ⟨rfl, fun h => Except.noConfusion h⟩

/-- C8 witness: the contract evaluated at a concrete mask of shape
`[1, 2, 1]` against `len_q = 3`, `batch = 4`, `len_k = 2`. -/
theorem prepare_mask_contract_witness :
    (MultiHeadAttention.prepare_mask (MaskTensor.mk 1 2 1 (fun _ _ _ => 1)) 3 4 2
        = .ok ((MaskTensor.mk 1 2 1 (fun _ _ _ => 1)).shape0,
            (MaskTensor.mk 1 2 1 (fun _ _ _ => 1)).shape1,
            (MaskTensor.mk 1 2 1 (fun _ _ _ => 1)).shape2, 1)
      ↔ (((MaskTensor.mk 1 2 1 (fun _ _ _ => 1)).shape0 = 1
            ∨ (MaskTensor.mk 1 2 1 (fun _ _ _ => 1)).shape0 = 3)
          ∧ (MaskTensor.mk 1 2 1 (fun _ _ _ => 1)).shape1 = 2
          ∧ ((MaskTensor.mk 1 2 1 (fun _ _ _ => 1)).shape2 = 1
            ∨ (MaskTensor.mk 1 2 1 (fun _ _ _ => 1)).shape2 = 4)))
    ∧ (¬ ((((MaskTensor.mk 1 2 1 (fun _ _ _ => 1)).shape0 = 1
            ∨ (MaskTensor.mk 1 2 1 (fun _ _ _ => 1)).shape0 = 3)
          ∧ (MaskTensor.mk 1 2 1 (fun _ _ _ => 1)).shape1 = 2
          ∧ ((MaskTensor.mk 1 2 1 (fun _ _ _ => 1)).shape2 = 1
            ∨ (MaskTensor.mk 1 2 1 (fun _ _ _ => 1)).shape2 = 4))) →
        MultiHeadAttention.prepare_mask (MaskTensor.mk 1 2 1 (fun _ _ _ => 1)) 3 4 2
          = .error .assertionError) :=
  prepare_mask_contract (MaskTensor.mk 1 2 1 (fun _ _ _ => 1)) 3 4 2
